import Mathlib

/-!
Shallow embedding of the devia-orm query-construction and metadata-resolution
pipeline (src/core/QueryBuilder.ts, src/utils/MetadataStorage.ts,
src/decorators/column.ts, src/core/Model.ts), together with theorems checking
the natural-language specification against it.

JavaScript runtime values that flow through the builder (where-clause values,
bound parameters) are modelled by `WhereVal`: primitives, `null`/`undefined`
(collapsed, as the code only ever tests `=== null || === undefined` and
`!== undefined`), arrays, and plain objects as insertion-ordered association
lists.  JavaScript `Map`s are modelled as insertion-ordered association lists
(`mapSet` overwrites in place, preserving the original insertion position,
exactly as `Map.prototype.set` does).  A thrown `Error` is modelled by
`Except.error` carrying the message; the dynamic `TypeError` that
`operator.$in.map` would raise when `$in` is not an array is modelled by
`Except.error "TypeError"`.
-/

namespace DeviaDB

/-- A JavaScript value as it appears in where clauses, records and parameter
lists: primitive number/string/boolean, null-or-undefined, array, or a plain
object given by its fields in insertion order. -/
inductive WhereVal where
  | vInt (n : Int)
  | vStr (s : String)
  | vBool (b : Bool)
  | vNull
  | vArr (l : List WhereVal)
  | vObj (fields : List (String × WhereVal))

/-- `array.join(sep)` / conditions joining as the source does with
`Array.prototype.join`. -/
def joinSep (sep : String) : List String → String
  | [] => ""
  | [x] => x
  | x :: y :: tl => x ++ sep ++ joinSep sep (y :: tl)

/-- Property access `obj[k]` on a plain object: first binding for the key, or
none when the key is absent (absence models JavaScript `undefined`). -/
def lookupField (fields : List (String × WhereVal)) (k : String) : Option WhereVal :=
  (fields.find? (fun p => p.1 == k)).map (fun p => p.2)

/-- The seven-key probe of `QueryBuilder.isOperator` on a plain object:
`value.$gt !== undefined || value.$lt !== undefined || ...`. -/
def hasOperatorKey (fields : List (String × WhereVal)) : Bool :=
  (lookupField fields "$gt").isSome ||
  (lookupField fields "$lt").isSome ||
  (lookupField fields "$gte").isSome ||
  (lookupField fields "$lte").isSome ||
  (lookupField fields "$like").isSome ||
  (lookupField fields "$in").isSome ||
  (lookupField fields "$ne").isSome

/-- `QueryBuilder.isOperator`: true exactly for a plain object (not null, not
an array) carrying at least one of the seven `$`-operator keys. -/
def isOperator : WhereVal → Bool
  | .vObj fields => hasOperatorKey fields
  | _ => false

/-- One `if (operator.$k !== undefined) { conditions.push(...); params.push(...) }`
step of `buildOperatorCondition`: appends the fragment and the parameter when
the operator key is present. -/
def opStep (fields : List (String × WhereVal)) (opKey frag : String)
    (acc : List String × List WhereVal) : List String × List WhereVal :=
  match lookupField fields opKey with
  | none => acc
  | some v => (acc.1 ++ [frag], acc.2 ++ [v])

/-- `QueryBuilder.buildOperatorCondition`: emits one fragment per present
operator key in the fixed order $gt, $gte, $lt, $lte, $ne, $like, $in, each
pushing its parameter(s); `$in` expands to `key IN (?, ...)` with one
placeholder and one parameter per element.  A present `$in` that is not an
array would make `operator.$in.map` throw at runtime, modelled as
`Except.error "TypeError"`. -/
def buildOperatorCondition (key : String) (fields : List (String × WhereVal)) :
    Except String (String × List WhereVal) :=
  let a1 := opStep fields "$gt" (key ++ " > ?") ([], [])
  let a2 := opStep fields "$gte" (key ++ " >= ?") a1
  let a3 := opStep fields "$lt" (key ++ " < ?") a2
  let a4 := opStep fields "$lte" (key ++ " <= ?") a3
  let a5 := opStep fields "$ne" (key ++ " != ?") a4
  let a6 := opStep fields "$like" (key ++ " LIKE ?") a5
  match lookupField fields "$in" with
  | none => .ok (joinSep " AND " a6.1, a6.2)
  | some (.vArr l) =>
      let placeholders := joinSep ", " (l.map (fun _ => "?"))
      .ok (joinSep " AND " (a6.1 ++ [key ++ " IN (" ++ placeholders ++ ")"]), a6.2 ++ l)
  | some _ => .error "TypeError"

/-- The body of the `for (const [key, value] of Object.entries(where))` loop of
`buildWhereClause` for a single entry: null/undefined gives `IS NULL` with no
parameter, a recognized Operator Set expands via `buildOperatorCondition`
(possibly to several fragments, rejoined with AND by the caller), anything
else gives simple equality with one parameter. -/
def whereCond (key : String) (value : WhereVal) :
    Except String (String × List WhereVal) :=
  match value with
  | .vNull => .ok (key ++ " IS NULL", [])
  | .vObj fields =>
      if hasOperatorKey fields then buildOperatorCondition key fields
      else .ok (key ++ " = ?", [WhereVal.vObj fields])
  | v => .ok (key ++ " = ?", [v])

/-- The `conditions` array and pushed parameters accumulated by
`buildWhereClause` over the entries of the where object, in entry order
(one pushed condition string per entry). -/
def whereConditions : List (String × WhereVal) →
    Except String (List String × List WhereVal)
  | [] => .ok ([], [])
  | (key, value) :: rest =>
    match whereCond key value with
    | .error e => .error e
    | .ok (c, ps) =>
      match whereConditions rest with
      | .error e => .error e
      | .ok (cs2, ps2) => .ok (c :: cs2, ps ++ ps2)

/-- `QueryBuilder.buildWhereClause`: the conditions joined with `" AND "`,
together with the parameters pushed along the way. -/
def buildWhereClause (w : List (String × WhereVal)) :
    Except String (String × List WhereVal) :=
  match whereConditions w with
  | .error e => .error e
  | .ok (cs, ps) => .ok (joinSep " AND " cs, ps)

/-- Sort direction, `"ASC" | "DESC"` in the source's `FindOptions.order` type. -/
inductive Dir where
  | ASC
  | DESC
deriving DecidableEq

def Dir.toStr : Dir → String
  | .ASC => "ASC"
  | .DESC => "DESC"

/-- `FindOptions<T>`: optional where object, limit, offset and order list.
An absent field models the JavaScript `undefined` the code tests for. -/
structure FindOptions where
  whereOpt : Option (List (String × WhereVal)) := none
  limit : Option Int := none
  offset : Option Int := none
  order : Option (List (String × Dir)) := none

/-- `UpdateOptions<T>` / `DestroyOptions<T>`: just an optional where object. -/
structure UpdateOptions where
  whereOpt : Option (List (String × WhereVal)) := none

/-- `QueryBuilder.buildSelect`: `SELECT * FROM <table>`, then conditionally a
WHERE clause (skipped when the built clause is the empty string, mirroring the
source's truthiness test), an ORDER BY clause when `order` is present and
non-empty, a parameterized `LIMIT ?`, and a parameterized `OFFSET ?`. -/
def buildSelect (tableName : String) (options : FindOptions) :
    Except String (String × List WhereVal) :=
  let sql := "SELECT * FROM " ++ tableName
  let step1 : Except String (String × List WhereVal) :=
    match options.whereOpt with
    | none => .ok (sql, [])
    | some w =>
      match buildWhereClause w with
      | .error e => .error e
      | .ok (wc, ps) =>
        if wc = "" then .ok (sql, ps) else .ok (sql ++ " WHERE " ++ wc, ps)
  match step1 with
  | .error e => .error e
  | .ok (sql1, params1) =>
    let sql2 :=
      match options.order with
      | some o =>
        if 0 < o.length then
          sql1 ++ " ORDER BY " ++ joinSep ", " (o.map (fun p => p.1 ++ " " ++ p.2.toStr))
        else sql1
      | none => sql1
    let step3 : String × List WhereVal :=
      match options.limit with
      | some l => (sql2 ++ " LIMIT ?", params1 ++ [WhereVal.vInt l])
      | none => (sql2, params1)
    match options.offset with
    | some o => .ok (step3.1 ++ " OFFSET ?", step3.2 ++ [WhereVal.vInt o])
    | none => .ok (step3.1, step3.2)

/-- `QueryBuilder.buildInsert`: the record's keys in iteration order become the
column list, one `?` placeholder per key, parameters are the values in the
same order. -/
def buildInsert (tableName : String) (data : List (String × WhereVal)) :
    String × List WhereVal :=
  let keys := data.map (fun p => p.1)
  let values := data.map (fun p => p.2)
  let columns := joinSep ", " keys
  let placeholders := joinSep ", " (keys.map (fun _ => "?"))
  ("INSERT INTO " ++ tableName ++ " (" ++ columns ++ ") VALUES (" ++ placeholders ++ ")",
   values)

/-- `QueryBuilder.buildUpdate`: throws `"No data to update"` when the partial
record has no keys; otherwise `UPDATE <table> SET k = ?, ...` with the SET
values first, then an optional WHERE clause whose parameters follow. -/
def buildUpdate (tableName : String) (data : List (String × WhereVal))
    (options : UpdateOptions) : Except String (String × List WhereVal) :=
  let keys := data.map (fun p => p.1)
  let values := data.map (fun p => p.2)
  if keys.length = 0 then .error "No data to update"
  else
    let setParts := keys.map (fun k => k ++ " = ?")
    let sql := "UPDATE " ++ tableName ++ " SET " ++ joinSep ", " setParts
    match options.whereOpt with
    | none => .ok (sql, values)
    | some w =>
      match buildWhereClause w with
      | .error e => .error e
      | .ok (wc, ps) =>
        if wc = "" then .ok (sql, values ++ ps)
        else .ok (sql ++ " WHERE " ++ wc, values ++ ps)

/-- `QueryBuilder.buildDelete`: `DELETE FROM <table>` plus an optional WHERE
clause. -/
def buildDelete (tableName : String) (options : UpdateOptions) :
    Except String (String × List WhereVal) :=
  let sql := "DELETE FROM " ++ tableName
  match options.whereOpt with
  | none => .ok (sql, [])
  | some w =>
    match buildWhereClause w with
    | .error e => .error e
    | .ok (wc, ps) =>
      if wc = "" then .ok (sql, ps) else .ok (sql ++ " WHERE " ++ wc, ps)

/-- `defaultValue` is `any` in the source; it is modelled over the primitive
values the spec discusses (number, string, boolean, null).  `undefined`
(meaning "no default") is the `Option.none` around this type. -/
inductive DefaultVal where
  | dInt (n : Int)
  | dStr (s : String)
  | dBool (b : Bool)
  | dNull
deriving DecidableEq

/-- `QueryBuilder.formatValue`: strings are single-quoted with embedded quotes
doubled (`/'/g` replaces every occurrence), `null` renders as `NULL`, and any
other value renders as JavaScript `String(value)` — for numbers the decimal
literal, for booleans `true`/`false`. -/
def formatValue : DefaultVal → String
  | .dStr s => "'" ++ s.replace "'" "''" ++ "'"
  | .dNull => "NULL"
  | .dInt n => toString n
  | .dBool b => if b then "true" else "false"

/-- One element of the column array `buildCreateTable` receives.  The optional
booleans model the optional TypeScript fields: `none` is `undefined`, which is
falsy in the `if (col.primaryKey)`-style tests and distinct from an explicit
`false` in the `col.nullable === false` test. -/
structure CreateColumn where
  name : String
  type : String
  primaryKey : Option Bool := none
  autoIncrement : Option Bool := none
  nullable : Option Bool := none
  unique : Option Bool := none
  defaultValue : Option DefaultVal := none

/-- The per-column body of `buildCreateTable`'s `columns.map`: `<name> <type>`
plus, in fixed order, PRIMARY KEY (+AUTOINCREMENT), NOT NULL (only on an
explicit `nullable === false`), UNIQUE, DEFAULT. -/
def columnDef (col : CreateColumn) : String :=
  let d1 := col.name ++ " " ++ col.type
  let d2 :=
    if col.primaryKey = some true then
      d1 ++ " PRIMARY KEY" ++ (if col.autoIncrement = some true then " AUTOINCREMENT" else "")
    else d1
  let d3 := if col.nullable = some false then d2 ++ " NOT NULL" else d2
  let d4 := if col.unique = some true then d3 ++ " UNIQUE" else d3
  match col.defaultValue with
  | some v => d4 ++ " DEFAULT " ++ formatValue v
  | none => d4

/-- `QueryBuilder.buildCreateTable`. -/
def buildCreateTable (tableName : String) (columns : List CreateColumn) : String :=
  "CREATE TABLE IF NOT EXISTS " ++ tableName ++ " (" ++
    joinSep ", " (columns.map columnDef) ++ ")"

/-! ## Metadata registry (src/utils/MetadataStorage.ts) -/

/-- `ColumnMetadata` from `src/core/Types.ts`: the stored description of one
column.  Optional fields model the optional TypeScript fields. -/
structure ColumnMetadata where
  name : String
  type : String
  primaryKey : Option Bool := none
  autoIncrement : Option Bool := none
  nullable : Option Bool := none
  unique : Option Bool := none
  defaultValue : Option DefaultVal := none

/-- `TableMetadata`: table name plus the insertion-ordered column map. -/
structure TableMetadata where
  tableName : String
  columns : List (String × ColumnMetadata)

/-- `Map.prototype.get` on an insertion-ordered association list (a JavaScript
Map never holds duplicate keys, so first-match lookup is its semantics). -/
def mapGet {α : Type} (m : List (String × α)) (k : String) : Option α :=
  match m with
  | [] => none
  | p :: tl => if p.1 = k then some p.2 else mapGet tl k

/-- `Map.prototype.set`: overwrites an existing binding in place (keeping its
original insertion position, as JavaScript Maps do) or appends a new one. -/
def mapSet {α : Type} (m : List (String × α)) (k : String) (v : α) :
    List (String × α) :=
  match m with
  | [] => [(k, v)]
  | p :: tl => if p.1 = k then (k, v) :: tl else p :: mapSet tl k v

/-- The `MetadataStorage.tables` map, keyed by class name. -/
def Tables : Type := List (String × TableMetadata)

/-- `String.prototype.toLowerCase`, modelled character by character (model
class names are ASCII identifiers, where JavaScript and `Char.toLower`
agree). -/
def toLowerCase (s : String) : String := String.mk (s.data.map Char.toLower)

/-- `MetadataStorage.registerTable`: creates a fresh descriptor with empty
columns when the class is unknown, otherwise updates only its table name. -/
def registerTable (tables : Tables) (className tableName : String) : Tables :=
  match mapGet tables className with
  | none => mapSet tables className { tableName := tableName, columns := [] }
  | some md => mapSet tables className { md with tableName := tableName }

/-- `MetadataStorage.registerColumn`: creates the descriptor with the
lower-cased class name as fallback table name when the class is unknown, then
stores the column metadata under the property key (a plain `Map.set`,
overwriting any previous metadata for that property). -/
def registerColumn (tables : Tables) (className propertyKey : String)
    (metadata : ColumnMetadata) : Tables :=
  let tables1 :=
    match mapGet tables className with
    | none => mapSet tables className { tableName := toLowerCase className, columns := [] }
    | some _ => tables
  match mapGet tables1 className with
  | some md =>
      mapSet tables1 className { md with columns := mapSet md.columns propertyKey metadata }
  | none => tables1

/-- `MetadataStorage.getTableMetadata` (keyed by the class name). -/
def getTableMetadata (tables : Tables) (className : String) : Option TableMetadata :=
  mapGet tables className

/-- The stored column metadata for one property of one model. -/
def getColumn (tables : Tables) (className propertyKey : String) :
    Option ColumnMetadata :=
  (getTableMetadata tables className).bind (fun md => mapGet md.columns propertyKey)

/-! ## Decorators (src/decorators/column.ts)

Each property decorator is modelled as a state transformer on the registry,
applied to the class name and property name it decorates.  The optional
reflection-based type inference (`Reflect.getMetadata?.("design:type", ...)`)
is environment-dependent and absent in the target environment (no
`emitDecoratorMetadata` runtime); it is modelled as yielding `undefined`, so
no inference happens. -/

/-- `ColumnOptions` of the `@Column` decorator. -/
structure ColumnOptions where
  type : Option String := none
  name : Option String := none
  nullable : Option Bool := none
  unique : Option Bool := none
  defaultValue : Option DefaultVal := none

/-- JavaScript `a || b` on an optional string: falls back when `a` is
`undefined` or the (falsy) empty string. -/
def jsOrString (v : Option String) (fallback : String) : String :=
  match v with
  | some s => if s = "" then fallback else s
  | none => fallback

/-- The `@Column(typeOrOptions?)` decorator: a bare string is a type, an
object is full options; builds fresh metadata (name defaulting to the
property name, type defaulting to `"TEXT"`) and registers it. -/
def Column (typeOrOptions : Option (String ⊕ ColumnOptions)) (tables : Tables)
    (className propName : String) : Tables :=
  let options : ColumnOptions :=
    match typeOrOptions with
    | some (Sum.inl t) => { type := some t }
    | some (Sum.inr o) => o
    | none => {}
  let metadata : ColumnMetadata :=
    { name := jsOrString options.name propName
      type := jsOrString options.type "TEXT"
      nullable := options.nullable
      unique := options.unique
      defaultValue := options.defaultValue }
  registerColumn tables className propName metadata

/-- The `@PrimaryKey(autoIncrement = true)` decorator: registers fresh
INTEGER/primary-key/not-null metadata for the property. -/
def PrimaryKey (autoIncrement : Bool) (tables : Tables)
    (className propName : String) : Tables :=
  registerColumn tables className propName
    { name := propName, type := "INTEGER", primaryKey := some true,
      autoIncrement := some autoIncrement, nullable := some false }

/-- The `@NotNull()` decorator: spreads the existing stored metadata for the
property (or a fresh `name`/`TEXT` stub) and overrides `nullable := false`. -/
def NotNull (tables : Tables) (className propName : String) : Tables :=
  let existingColumn := getColumn tables className propName
  let metadata : ColumnMetadata :=
    match existingColumn with
    | some c => { c with nullable := some false }
    | none => { name := propName, type := "TEXT", nullable := some false }
  registerColumn tables className propName metadata

/-- The `@Unique()` decorator: spreads the existing stored metadata and
overrides `unique := true`. -/
def Unique (tables : Tables) (className propName : String) : Tables :=
  let existingColumn := getColumn tables className propName
  let metadata : ColumnMetadata :=
    match existingColumn with
    | some c => { c with unique := some true }
    | none => { name := propName, type := "TEXT", unique := some true }
  registerColumn tables className propName metadata

/-- The `@Default(value)` decorator: spreads the existing stored metadata and
overrides `defaultValue`. -/
def Default (value : DefaultVal) (tables : Tables)
    (className propName : String) : Tables :=
  let existingColumn := getColumn tables className propName
  let metadata : ColumnMetadata :=
    match existingColumn with
    | some c => { c with defaultValue := some value }
    | none => { name := propName, type := "TEXT", defaultValue := some value }
  registerColumn tables className propName metadata

/-! ## Record accessor (src/core/Model.ts) -/

/-- `Model.getTableName`: the registered table name when a descriptor exists,
otherwise the static `tableName` property or (falsy fallback) the lower-cased
class name. -/
def getTableName (tables : Tables) (className : String)
    (staticTableName : Option String) : String :=
  match getTableMetadata tables className with
  | some md => md.tableName
  | none => jsOrString staticTableName (toLowerCase className)

/-- The per-entry body of `sync`'s `Array.from(metadata.columns.entries()).map`:
turns one registered (property, metadata) entry into a `buildCreateTable`
column (`name: col.name || name` with JavaScript truthiness). -/
def syncColumn (p : String × ColumnMetadata) : CreateColumn :=
  { name := jsOrString (some p.2.name) p.1
    type := p.2.type
    primaryKey := p.2.primaryKey
    autoIncrement := p.2.autoIncrement
    nullable := p.2.nullable
    unique := p.2.unique
    defaultValue := p.2.defaultValue }

/-- `Model.sync({ force? })`, modelled as the list of SQL statements it hands
to `Database.execute`, or the thrown error message: throws when no descriptor
exists or it has zero columns (before issuing any SQL); with `force` a
`DROP TABLE IF EXISTS` precedes the `CREATE TABLE IF NOT EXISTS` built from
the registered columns in registration order. -/
def sync (tables : Tables) (className : String) (staticTableName : Option String)
    (force : Bool) : Except String (List String) :=
  let tableName := getTableName tables className staticTableName
  match getTableMetadata tables className with
  | none =>
      .error ("No columns defined for model " ++ className ++ ". Use @Column decorators.")
  | some metadata =>
    if metadata.columns.length = 0 then
      .error ("No columns defined for model " ++ className ++ ". Use @Column decorators.")
    else
      let createSql := buildCreateTable tableName (metadata.columns.map syncColumn)
      if force then
        .ok ["DROP TABLE IF EXISTS " ++ tableName, createSql]
      else
        .ok [createSql]

/-- A result row handed back by the storage gateway. -/
def Row : Type := List (String × WhereVal)

/-- `Model.findAll`: builds the SELECT via `buildSelect` and hands it to the
storage gateway (abstracted as `exec`), returning its rows. -/
def findAll (exec : String → List WhereVal → List Row) (tableName : String)
    (options : FindOptions) : Except String (List Row) :=
  match buildSelect tableName options with
  | .error e => .error e
  | .ok (sql, params) => .ok (exec sql params)

/-- `Model.findOne`: `{ ...options, limit: 1 }` (the spread keeps every other
field and the trailing `limit: 1` wins), then the first row or null. -/
def findOne (exec : String → List WhereVal → List Row) (tableName : String)
    (options : FindOptions) : Except String (Option Row) :=
  let limitedOptions : FindOptions := { options with limit := some 1 }
  match findAll exec tableName limitedOptions with
  | .error e => .error e
  | .ok results => .ok results.head?

/-! ## Definitions used by theorem statements -/

/-- The WHERE-clause computation a statement builder performs for its optional
where object: the empty clause with no parameters when the object is absent,
otherwise `buildWhereClause`. -/
def whereResult : Option (List (String × WhereVal)) →
    Except String (String × List WhereVal)
  | none => .ok ("", [])
  | some w => buildWhereClause w

/-- Spec-side rendering of an Operator Set (clearly-named second definition,
written from the spec's words for the refinement comparison): one SQL fragment
per present operator key, in the spec's fixed key-check order gt, gte, lt,
lte, ne, like, in, with `in` expanding to one placeholder per element. -/
def specOpFragments (key : String) (g ge l le n lk : Option WhereVal)
    (i : Option (List WhereVal)) : List String :=
  (g.toList.map (fun _ => key ++ " > ?")) ++
  (ge.toList.map (fun _ => key ++ " >= ?")) ++
  (l.toList.map (fun _ => key ++ " < ?")) ++
  (le.toList.map (fun _ => key ++ " <= ?")) ++
  (n.toList.map (fun _ => key ++ " != ?")) ++
  (lk.toList.map (fun _ => key ++ " LIKE ?")) ++
  (i.toList.map (fun xs => key ++ " IN (" ++ joinSep ", " (xs.map (fun _ => "?")) ++ ")"))

/-- Spec-side parameter order for an Operator Set: each present operator's
parameter(s) in the same fixed key order, the `in` list elements last, in
order. -/
def specOpParams (g ge l le n lk : Option WhereVal) (i : Option (List WhereVal)) :
    List WhereVal :=
  g.toList ++ ge.toList ++ l.toList ++ le.toList ++ n.toList ++ lk.toList ++ i.getD []

/-- Spec-side column rendering (clearly-named second definition written from
the spec's words, for the refinement comparison): `<name> <type>` followed, in
fixed order, by the conditional PRIMARY KEY (with AUTOINCREMENT), NOT NULL
(only on an explicitly false nullability), UNIQUE and DEFAULT chunks, an
absent attribute contributing nothing. -/
def specColumnDef (col : CreateColumn) : String :=
  col.name ++ " " ++ col.type ++
    (if col.primaryKey = some true then
      " PRIMARY KEY" ++ (if col.autoIncrement = some true then " AUTOINCREMENT" else "")
    else "") ++
    (if col.nullable = some false then " NOT NULL" else "") ++
    (if col.unique = some true then " UNIQUE" else "") ++
    (match col.defaultValue with
     | some v => " DEFAULT " ++ formatValue v
     | none => "")

/-- The number of `?` placeholder characters in a piece of SQL text. -/
def countQ (s : String) : Nat := s.data.count '?'

/-! ## Registry map lemmas -/

/-- Looking up the key just set by `mapSet` yields the new value (whether the
binding was overwritten in place or appended). -/
theorem mapGet_mapSet_self {α : Type} (m : List (String × α)) (k : String) (v : α) :
    mapGet (mapSet m k v) k = some v := by
  induction m with
  | nil => simp [mapGet, mapSet]
  | cons p tl ih =>
      by_cases hp : p.1 = k
      · simp [mapGet, mapSet, hp]
      · simp [mapGet, mapSet, hp, ih]

/-- `mapSet` does not disturb lookups of other keys. -/
theorem mapGet_mapSet_ne {α : Type} (m : List (String × α)) (k k' : String) (v : α)
    (h : k' ≠ k) : mapGet (mapSet m k v) k' = mapGet m k' := by
  have hkk : ¬ k = k' := fun hh => h hh.symm
  induction m with
  | nil => simp [mapGet, mapSet, hkk]
  | cons p tl ih =>
      by_cases hp : p.1 = k
      · simp [mapGet, mapSet, hp, hkk]
      · by_cases hq : p.1 = k'
        · simp [mapGet, mapSet, hp, hq, h]
        · simp [mapGet, mapSet, hp, hq, ih]

/-- Registering a column stores exactly the given metadata under the property
key (whatever was stored before): the registry-level `Map.set` replace. -/
theorem getColumn_registerColumn (tables : Tables) (cn pn : String)
    (md : ColumnMetadata) :
    getColumn (registerColumn tables cn pn md) cn pn = some md := by
  unfold registerColumn
  cases h : mapGet tables cn with
  | none =>
      simp only [h]
      have h1 : mapGet (mapSet tables cn { tableName := toLowerCase cn, columns := [] }) cn =
          some { tableName := toLowerCase cn, columns := [] } := mapGet_mapSet_self _ _ _
      simp only [h1, getColumn, getTableMetadata, mapGet_mapSet_self, Option.bind]
  | some m =>
      simp only [h, getColumn, getTableMetadata, mapGet_mapSet_self, Option.bind]

/-! ## Claims -/

/-- C7: for every query descriptor (whatever `limit` the caller set), `findOne`
is `findAll` with the limit field replaced by 1 and every other field kept,
returning the head of the result list, or none when it is empty. -/
theorem C7_findOne_is_limited_findAll (exec : String → List WhereVal → List Row)
    (tableName : String) (options : FindOptions) :
    findOne exec tableName options =
      (findAll exec tableName
        { whereOpt := options.whereOpt, limit := some 1,
          offset := options.offset, order := options.order }).map List.head? := by
  have hopts : ({ options with limit := some 1 } : FindOptions) =
      { whereOpt := options.whereOpt, limit := some 1,
        offset := options.offset, order := options.order } := by
    cases options
    rfl
  unfold findOne
  rw [hopts]
  cases h : findAll exec tableName
      { whereOpt := options.whereOpt, limit := some 1,
        offset := options.offset, order := options.order } with
  | error e => simp [h, Except.map]
  | ok r => simp [h, Except.map]

/-- C1, counterexample: column registration is NOT a merge in general.  After
`@NotNull()` stored `nullable := false` for `User.email`, a following
`@Column("TEXT")` registration — which does not explicitly set nullability —
erases it back to unset, contradicting the claim that unspecified fields of a
later declaration keep their earlier values. -/
theorem C1_counterexample :
    (getColumn (NotNull [] "User" "email") "User" "email").map
        (fun c => c.nullable) = some (some false) ∧
    (getColumn (Column (some (Sum.inl "TEXT")) (NotNull [] "User" "email")
        "User" "email") "User" "email").map (fun c => c.nullable) = some none :=
  ⟨rfl, rfl⟩

/-- C1, amended: at the storage level `registerColumn` replaces the whole
stored column descriptor (last registration wins); the merge behaviour holds
for the `@NotNull` decorator, which copies the existing stored descriptor and
overrides only nullability — so not-null after a TEXT column declaration keeps
the stored type (and every other field) and sets `nullable := false`. -/
theorem C1_register_replaces_notnull_merges (tables : Tables) (cn pn : String)
    (md : ColumnMetadata) :
    getColumn (registerColumn tables cn pn md) cn pn = some md ∧
    (∀ c, getColumn tables cn pn = some c →
      getColumn (NotNull tables cn pn) cn pn =
        some { c with nullable := some false }) := by
  constructor
  · exact getColumn_registerColumn tables cn pn md
  · intro c hc
    unfold NotNull
    rw [hc]
    exact getColumn_registerColumn tables cn pn { c with nullable := some false }

/-- C1, witness: after `@Column("TEXT")` on `User.email`, applying `@NotNull()`
stores TEXT metadata with `nullable := false`. -/
theorem C1_amended_witness :
    getColumn (NotNull (Column (some (Sum.inl "TEXT")) [] "User" "email")
        "User" "email") "User" "email" =
      some { name := "email", type := "TEXT", nullable := some false } :=
  (C1_register_replaces_notnull_merges
      (Column (some (Sum.inl "TEXT")) [] "User" "email") "User" "email"
      { name := "email", type := "TEXT" }).2
    { name := "email", type := "TEXT" } rfl

/-- C8: `registerTable` is an upsert — on an unknown model it creates a
descriptor with the given table name and no columns; on a known one it updates
only the table name, preserving the registered columns; it leaves other models
alone and applying it twice equals applying it once (observationally on the
registry).  `registerColumn` on an unknown model creates the descriptor with
the lower-cased model key as fallback table name. -/
theorem C8_registry_upsert (tables : Tables) (cn tn pn : String)
    (m : ColumnMetadata) :
    (getTableMetadata tables cn = none →
      getTableMetadata (registerTable tables cn tn) cn =
        some { tableName := tn, columns := [] }) ∧
    (∀ md, getTableMetadata tables cn = some md →
      getTableMetadata (registerTable tables cn tn) cn =
        some { tableName := tn, columns := md.columns }) ∧
    (∀ cn', cn' ≠ cn →
      getTableMetadata (registerTable tables cn tn) cn' =
        getTableMetadata tables cn') ∧
    (∀ cn', getTableMetadata (registerTable (registerTable tables cn tn) cn tn) cn' =
      getTableMetadata (registerTable tables cn tn) cn') ∧
    (getTableMetadata tables cn = none →
      getTableMetadata (registerColumn tables cn pn m) cn =
        some { tableName := toLowerCase cn, columns := [(pn, m)] }) := by
  refine ⟨?_, ?_, ?_, ?_, ?_⟩
  · intro h
    unfold registerTable getTableMetadata at *
    rw [h]
    exact mapGet_mapSet_self _ _ _
  · intro md h
    unfold registerTable getTableMetadata at *
    rw [h]
    exact mapGet_mapSet_self _ _ _
  · intro cn' hne
    unfold registerTable getTableMetadata at *
    cases h : mapGet tables cn <;> simp only [h] <;>
      exact mapGet_mapSet_ne _ _ _ _ hne
  · intro cn'
    by_cases hne : cn' = cn
    · subst hne
      unfold registerTable getTableMetadata at *
      cases h : mapGet tables cn' with
      | none =>
          simp only [h, mapGet_mapSet_self]
      | some md =>
          simp only [h, mapGet_mapSet_self]
    · unfold registerTable getTableMetadata at *
      cases h : mapGet tables cn with
      | none =>
          have h2 : mapGet (mapSet tables cn { tableName := tn, columns := [] }) cn =
              some { tableName := tn, columns := [] } := mapGet_mapSet_self _ _ _
          simp only [h, h2]
          rw [mapGet_mapSet_ne _ _ _ _ hne, mapGet_mapSet_ne _ _ _ _ hne]
      | some md =>
          have h2 : mapGet (mapSet tables cn { md with tableName := tn }) cn =
              some { md with tableName := tn } := mapGet_mapSet_self _ _ _
          simp only [h, h2]
          rw [mapGet_mapSet_ne _ _ _ _ hne, mapGet_mapSet_ne _ _ _ _ hne]
  · intro h
    unfold registerColumn getTableMetadata at *
    rw [h]
    have h1 : mapGet (mapSet tables cn { tableName := toLowerCase cn, columns := [] }) cn =
        some { tableName := toLowerCase cn, columns := [] } := mapGet_mapSet_self _ _ _
    simp only [h1]
    exact mapGet_mapSet_self _ _ _

/-- C8, witness: on an empty registry, `registerTable` creates the descriptor
for `User`/`users` with no columns, and `registerColumn` alone creates one
with the lower-cased fallback table name `user`. -/
theorem C8_witness :
    getTableMetadata (registerTable [] "User" "users") "User" =
      some { tableName := "users", columns := [] } ∧
    getTableMetadata (registerColumn [] "User" "id"
        { name := "id", type := "INTEGER" }) "User" =
      some { tableName := "user",
             columns := [("id", { name := "id", type := "INTEGER" })] } :=
  ⟨(C8_registry_upsert [] "User" "users" "id" { name := "id", type := "INTEGER" }).1 rfl,
   (C8_registry_upsert [] "User" "users" "id"
      { name := "id", type := "INTEGER" }).2.2.2.2 rfl⟩

/-- C2: for every column whose where-value is an operator object — whatever
order its keys were written in, and whatever other keys it carries — the
builder emits one fragment per present operator key joined with AND in the
fixed key-check order gt, gte, lt, lte, ne, like, in, pushing each operator's
parameter(s) in that same order, a present `in` list of length n contributing
n placeholders and its n elements as parameters in order. -/
theorem C2_operator_expansion (key : String) (fields : List (String × WhereVal))
    (g ge l le n lk : Option WhereVal) (i : Option (List WhereVal))
    (hg : lookupField fields "$gt" = g) (hge : lookupField fields "$gte" = ge)
    (hl : lookupField fields "$lt" = l) (hle : lookupField fields "$lte" = le)
    (hn : lookupField fields "$ne" = n) (hlk : lookupField fields "$like" = lk)
    (hi : lookupField fields "$in" = i.map WhereVal.vArr) :
    buildOperatorCondition key fields =
      .ok (joinSep " AND " (specOpFragments key g ge l le n lk i),
           specOpParams g ge l le n lk i) := by
  unfold buildOperatorCondition opStep
  rw [hg, hge, hl, hle, hn, hlk, hi]
  cases g <;> cases ge <;> cases l <;> cases le <;> cases n <;> cases lk <;>
    cases i <;> rfl

/-- C2, witness: `{ $gte: 10, $lte: 20 }` on column `age` (keys written in
either insertion order) yields `age >= ? AND age <= ?` with parameters
`[10, 20]`, and `{ $in: [1, 2, 3] }` on `id` yields three placeholders with
the three elements in order. -/
theorem C2_witness :
    buildOperatorCondition "age" [("$lte", .vInt 20), ("$gte", .vInt 10)] =
      .ok ("age >= ? AND age <= ?", [.vInt 10, .vInt 20]) ∧
    buildOperatorCondition "id" [("$in", .vArr [.vInt 1, .vInt 2, .vInt 3])] =
      .ok ("id IN (?, ?, ?)", [.vInt 1, .vInt 2, .vInt 3]) :=
  ⟨C2_operator_expansion "age" [("$lte", .vInt 20), ("$gte", .vInt 10)]
      none (some (.vInt 10)) none (some (.vInt 20)) none none none
      rfl rfl rfl rfl rfl rfl rfl,
   C2_operator_expansion "id" [("$in", .vArr [.vInt 1, .vInt 2, .vInt 3])]
      none none none none none none (some [.vInt 1, .vInt 2, .vInt 3])
      rfl rfl rfl rfl rfl rfl rfl⟩

/-- The only error the operator expansion can produce is the dynamic
`TypeError` for a non-array `$in`. -/
theorem buildOperatorCondition_error (key : String)
    (fields : List (String × WhereVal)) (e : String)
    (h : buildOperatorCondition key fields = .error e) : e = "TypeError" := by
  unfold buildOperatorCondition at h
  cases hin : lookupField fields "$in" with
  | none => rw [hin] at h; exact absurd h (by simp)
  | some v =>
      rw [hin] at h
      cases v <;> simp at h <;> exact h.symm

/-- The only error a single where-entry can produce is `TypeError`. -/
theorem whereCond_error (key : String) (v : WhereVal) (e : String)
    (h : whereCond key v = .error e) : e = "TypeError" := by
  cases v with
  | vObj fields =>
      simp only [whereCond] at h
      by_cases hop : hasOperatorKey fields = true
      · rw [if_pos hop] at h
        exact buildOperatorCondition_error key fields e h
      · rw [if_neg hop] at h
        exact absurd h (by simp)
  | vNull => exact absurd h (by simp [whereCond])
  | vInt n => exact absurd h (by simp [whereCond])
  | vStr s => exact absurd h (by simp [whereCond])
  | vBool b => exact absurd h (by simp [whereCond])
  | vArr l => exact absurd h (by simp [whereCond])

/-- The only error the where-clause loop can produce is `TypeError`. -/
theorem whereConditions_error (w : List (String × WhereVal)) (e : String)
    (h : whereConditions w = .error e) : e = "TypeError" := by
  induction w with
  | nil => exact absurd h (by simp [whereConditions])
  | cons p tl ih =>
      unfold whereConditions at h
      cases hc : whereCond p.1 p.2 with
      | error e' =>
          rw [hc] at h
          cases h
          exact whereCond_error p.1 p.2 e hc
      | ok r =>
          rw [hc] at h
          cases htl : whereConditions tl with
          | error e' =>
              rw [htl] at h
              cases h
              exact ih htl
          | ok r2 => rw [htl] at h; exact absurd h (by simp)

/-- The only error `buildWhereClause` can produce is `TypeError`. -/
theorem buildWhereClause_error (w : List (String × WhereVal)) (e : String)
    (h : buildWhereClause w = .error e) : e = "TypeError" := by
  unfold buildWhereClause at h
  cases hw : whereConditions w with
  | error e' =>
      rw [hw] at h
      cases h
      exact whereConditions_error w e hw
  | ok r => rw [hw] at h; exact absurd h (by simp)

/-- Clause composition of `buildUpdate` on a non-empty record (shared
helper): SET parts in record order, optional WHERE chunk, SET values before
WHERE values. -/
theorem buildUpdate_clauses (t : String) (data : List (String × WhereVal))
    (opts : UpdateOptions) (wc : String) (wps : List WhereVal)
    (hw : whereResult opts.whereOpt = .ok (wc, wps)) (hne : data ≠ []) :
    buildUpdate t data opts =
      .ok ("UPDATE " ++ t ++ " SET " ++
            joinSep ", " (data.map (fun p => p.1 ++ " = ?")) ++
            (if wc = "" then "" else " WHERE " ++ wc),
           data.map (fun p => p.2) ++ wps) := by
  cases hd : data with
  | nil => exact absurd hd hne
  | cons p tl =>
      subst hd
      unfold buildUpdate
      rw [if_neg (by simp)]
      cases ho : opts.whereOpt with
      | none =>
          rw [ho] at hw
          simp only [whereResult, Except.ok.injEq, Prod.mk.injEq] at hw
          obtain ⟨h1, h2⟩ := hw
          subst h1
          subst h2
          simp [String.append_empty, List.map_map, Function.comp_def]
      | some w =>
          rw [ho] at hw
          simp only [whereResult] at hw
          simp only [ho]
          rw [hw]
          by_cases hwc : wc = ""
          · simp [hwc, String.append_empty, List.map_map, Function.comp_def]
          · simp [hwc, String.append_assoc, List.map_map, Function.comp_def]

/-- C4: `buildUpdate` fails with the "No data to update" error exactly when
the partial record has no keys; on a non-empty record (whose where clause
raises no dynamic error) it emits `UPDATE <table> SET k1 = ?, k2 = ? ...`
with the optional WHERE clause appended, the parameters being the SET values
followed by the WHERE parameters in that order. -/
theorem C4_buildUpdate (t : String) (data : List (String × WhereVal))
    (opts : UpdateOptions) :
    (buildUpdate t data opts = .error "No data to update" ↔ data = []) ∧
    (∀ wc wps, whereResult opts.whereOpt = .ok (wc, wps) → data ≠ [] →
      buildUpdate t data opts =
        .ok ("UPDATE " ++ t ++ " SET " ++
              joinSep ", " (data.map (fun p => p.1 ++ " = ?")) ++
              (if wc = "" then "" else " WHERE " ++ wc),
             data.map (fun p => p.2) ++ wps)) := by
  constructor
  · constructor
    · intro h
      cases hd : data with
      | nil => rfl
      | cons p tl =>
          exfalso
          rw [hd] at h
          unfold buildUpdate at h
          rw [if_neg (by simp)] at h
          cases ho : opts.whereOpt with
          | none => simp [ho] at h
          | some w =>
              simp only [ho] at h
              cases hbw : buildWhereClause w with
              | error e =>
                  simp only [hbw, Except.error.injEq] at h
                  subst h
                  have := buildWhereClause_error w _ hbw
                  simp at this
              | ok r =>
                  obtain ⟨wc, ps⟩ := r
                  simp only [hbw] at h
                  by_cases hwc : wc = "" <;> simp [hwc] at h
    · intro h
      subst h
      rfl
  · exact fun wc wps hw hne => buildUpdate_clauses t data opts wc wps hw hne

/-- C4, witness: the empty partial record fails with "No data to update";
`{ age: 31 }` with `where { id: 1 }` yields `UPDATE t SET age = ? WHERE
id = ?` with parameters `[31, 1]`. -/
theorem C4_witness :
    buildUpdate "t" [] { whereOpt := some [("id", .vInt 1)] } =
      .error "No data to update" ∧
    buildUpdate "t" [("age", .vInt 31)] { whereOpt := some [("id", .vInt 1)] } =
      .ok ("UPDATE t SET age = ? WHERE id = ?", [.vInt 31, .vInt 1]) := by
  constructor
  · exact (C4_buildUpdate "t" [] { whereOpt := some [("id", .vInt 1)] }).1.mpr rfl
  · have h := (C4_buildUpdate "t" [("age", .vInt 31)]
        { whereOpt := some [("id", .vInt 1)] }).2 "id = ?" [.vInt 1] rfl (by simp)
    simpa using h

/-- Clause composition of `buildSelect` (shared helper): base text, then the
four optional clauses in fixed order, each absent field contributing the empty
chunk, with LIMIT/OFFSET parameters after the WHERE parameters. -/
theorem buildSelect_clauses (t : String) (opts : FindOptions) (wc : String)
    (wps : List WhereVal) (hw : whereResult opts.whereOpt = .ok (wc, wps)) :
    buildSelect t opts =
      .ok ("SELECT * FROM " ++ t ++
            (if wc = "" then "" else " WHERE " ++ wc) ++
            (match opts.order with
             | some o =>
               if 0 < o.length then
                 " ORDER BY " ++ joinSep ", " (o.map (fun p => p.1 ++ " " ++ p.2.toStr))
               else ""
             | none => "") ++
            (if opts.limit.isSome then " LIMIT ?" else "") ++
            (if opts.offset.isSome then " OFFSET ?" else ""),
           wps ++ opts.limit.toList.map WhereVal.vInt ++
             opts.offset.toList.map WhereVal.vInt) := by
  obtain ⟨wo, lim, off, ord⟩ := opts
  cases wo with
  | none =>
      simp only [whereResult, Except.ok.injEq, Prod.mk.injEq] at hw
      obtain ⟨h1, h2⟩ := hw
      subst h1
      subst h2
      cases ord with
      | none =>
          cases lim <;> cases off <;>
            simp [buildSelect, Option.toList, String.append_assoc, String.append_empty]
      | some o =>
          by_cases hord : 0 < o.length <;> cases lim <;> cases off <;>
            simp [buildSelect, hord, Option.toList, String.append_assoc,
              String.append_empty]
  | some w =>
      simp only [whereResult] at hw
      simp only [buildSelect]
      rw [hw]
      by_cases hwc : wc = ""
      · cases ord with
        | none =>
            cases lim <;> cases off <;>
              simp [hwc, Option.toList, String.append_assoc, String.append_empty]
        | some o =>
            by_cases hord : 0 < o.length <;> cases lim <;> cases off <;>
              simp [hwc, hord, Option.toList, String.append_assoc, String.append_empty]
      · cases ord with
        | none =>
            cases lim <;> cases off <;>
              simp [hwc, Option.toList, String.append_assoc, String.append_empty]
        | some o =>
            by_cases hord : 0 < o.length <;> cases lim <;> cases off <;>
              simp [hwc, hord, Option.toList, String.append_assoc, String.append_empty]

/-- C3: `buildSelect` emits `SELECT * FROM <table>` followed by at most four
clauses in exactly the order WHERE, ORDER BY, LIMIT, OFFSET; ORDER BY lists
`<column> <direction>` pairs comma-joined in descriptor order; LIMIT and
OFFSET are parameterized with their values appended after all WHERE
parameters; an absent (or empty) descriptor field contributes nothing. -/
theorem C3_buildSelect (t : String) (opts : FindOptions) (wc : String)
    (wps : List WhereVal) (hw : whereResult opts.whereOpt = .ok (wc, wps)) :
    buildSelect t opts =
      .ok ("SELECT * FROM " ++ t ++
            (if wc = "" then "" else " WHERE " ++ wc) ++
            (match opts.order with
             | some o =>
               if 0 < o.length then
                 " ORDER BY " ++ joinSep ", " (o.map (fun p => p.1 ++ " " ++ p.2.toStr))
               else ""
             | none => "") ++
            (if opts.limit.isSome then " LIMIT ?" else "") ++
            (if opts.offset.isSome then " OFFSET ?" else ""),
           wps ++ opts.limit.toList.map WhereVal.vInt ++
             opts.offset.toList.map WhereVal.vInt) :=
  buildSelect_clauses t opts wc wps hw

/-- C3, witness: `findAll`'s statement for
`{ order: [["name","ASC"]], limit: 2, offset: 2 }` is
`SELECT * FROM t ORDER BY name ASC LIMIT ? OFFSET ?` with parameters
`[2, 2]`. -/
theorem C3_witness :
    buildSelect "t"
        { order := some [("name", .ASC)], limit := some 2, offset := some 2 } =
      .ok ("SELECT * FROM t ORDER BY name ASC LIMIT ? OFFSET ?",
           [.vInt 2, .vInt 2]) := by
  have h := C3_buildSelect "t"
      { order := some [("name", .ASC)], limit := some 2, offset := some 2 }
      "" [] rfl
  simpa using h

/-- The source's per-column rendering agrees with the spec-side rendering. -/
theorem columnDef_eq_spec (col : CreateColumn) : columnDef col = specColumnDef col := by
  obtain ⟨nm, ty, pk, ai, nl, uq, dv⟩ := col
  unfold columnDef specColumnDef
  cases dv <;> by_cases hpk : pk = some true <;> by_cases hai : ai = some true <;>
    by_cases hnl : nl = some false <;> by_cases huq : uq = some true <;>
    simp [hpk, hai, hnl, huq, String.append_assoc, String.append_empty] <;>
    exact congrArg (fun x => nm ++ (" " ++ (ty ++ x)))
      (by rw [← String.append_assoc]; simp)

/-- C6: `buildCreateTable` renders `CREATE TABLE IF NOT EXISTS <table> (...)`
with each column definition in the spec's fixed attribute order, and
`formatValue` renders string defaults single-quoted with embedded quotes
doubled, a null default as the NULL keyword, and numeric/boolean defaults as
their textual literal. -/
theorem C6_buildCreateTable (t : String) (cols : List CreateColumn)
    (s : String) (b : Bool) (n : Int) :
    buildCreateTable t cols =
      "CREATE TABLE IF NOT EXISTS " ++ t ++ " (" ++
        joinSep ", " (cols.map specColumnDef) ++ ")" ∧
    formatValue (.dStr s) = "'" ++ s.replace "'" "''" ++ "'" ∧
    formatValue .dNull = "NULL" ∧
    formatValue (.dInt n) = toString n ∧
    formatValue (.dBool b) = (if b then "true" else "false") := by
  refine ⟨?_, rfl, rfl, rfl, rfl⟩
  unfold buildCreateTable
  have h : columnDef = specColumnDef := funext columnDef_eq_spec
  rw [h]

/-- C5: `sync` fails with the no-columns error exactly when the resolved
schema is absent or has zero registered columns (issuing no SQL: the error
result carries no statements); otherwise without `force` it issues only the
`CREATE TABLE IF NOT EXISTS` statement built from the registered columns in
registration order, and with `force` the same statement preceded by
`DROP TABLE IF EXISTS`. -/
theorem C5_sync (tables : Tables) (cn : String) (st : Option String) :
    ((getTableMetadata tables cn = none ∨
        ∃ m, getTableMetadata tables cn = some m ∧ m.columns = []) →
      ∀ force, sync tables cn st force =
        .error ("No columns defined for model " ++ cn ++ ". Use @Column decorators.")) ∧
    (∀ m, getTableMetadata tables cn = some m → m.columns ≠ [] →
      sync tables cn st false =
        .ok [buildCreateTable (getTableName tables cn st) (m.columns.map syncColumn)] ∧
      sync tables cn st true =
        .ok ["DROP TABLE IF EXISTS " ++ getTableName tables cn st,
             buildCreateTable (getTableName tables cn st) (m.columns.map syncColumn)]) := by
  constructor
  · rintro (h | ⟨m, hm, hcols⟩) force
    · unfold sync
      simp [h]
    · unfold sync
      simp [hm, hcols]
  · intro m hm hne
    have hlen : ¬ m.columns.length = 0 := by simpa using hne
    constructor
    · unfold sync
      simp [hm, hlen]
    · unfold sync
      simp [hm, hlen]

/-- C5, witness: a model with no registered columns fails with the
no-columns error; after one TEXT column registration, `sync` with force
drops then creates, and without force only creates. -/
theorem C5_witness :
    sync [] "User" none false =
      .error "No columns defined for model User. Use @Column decorators." ∧
    sync (Column (some (Sum.inl "TEXT")) [] "User" "name") "User" none true =
      .ok ["DROP TABLE IF EXISTS user",
           "CREATE TABLE IF NOT EXISTS user (name TEXT)"] ∧
    sync (Column (some (Sum.inl "TEXT")) [] "User" "name") "User" none false =
      .ok ["CREATE TABLE IF NOT EXISTS user (name TEXT)"] := by
  refine ⟨(C5_sync [] "User" none).1 (Or.inl rfl) false, ?_, ?_⟩
  · exact ((C5_sync (Column (some (Sum.inl "TEXT")) [] "User" "name") "User" none).2
      { tableName := "user", columns := [("name", { name := "name", type := "TEXT" })] }
      rfl (by simp)).2
  · exact ((C5_sync (Column (some (Sum.inl "TEXT")) [] "User" "name") "User" none).2
      { tableName := "user", columns := [("name", { name := "name", type := "TEXT" })] }
      rfl (by simp)).1

/-- Clause composition of `buildDelete` (shared helper). -/
theorem buildDelete_clauses (t : String) (opts : UpdateOptions) (wc : String)
    (wps : List WhereVal) (hw : whereResult opts.whereOpt = .ok (wc, wps)) :
    buildDelete t opts =
      .ok ("DELETE FROM " ++ t ++ (if wc = "" then "" else " WHERE " ++ wc),
           wps) := by
  obtain ⟨wo⟩ := opts
  cases wo with
  | none =>
      simp only [whereResult, Except.ok.injEq, Prod.mk.injEq] at hw
      obtain ⟨h1, h2⟩ := hw
      subst h1
      subst h2
      simp [buildDelete, String.append_empty]
  | some w =>
      simp only [whereResult] at hw
      simp only [buildDelete]
      rw [hw]
      by_cases hwc : wc = "" <;>
        simp [hwc, String.append_assoc, String.append_empty]

/-- A where-clause error propagates out of `buildSelect` unchanged. -/
theorem buildSelect_error (t : String) (opts : FindOptions) (e : String)
    (hw : whereResult opts.whereOpt = .error e) :
    buildSelect t opts = .error e := by
  obtain ⟨wo, lim, off, ord⟩ := opts
  cases wo with
  | none => simp [whereResult] at hw
  | some w =>
      simp only [whereResult] at hw
      simp [buildSelect, hw]

/-- A where-clause error propagates out of `buildDelete` unchanged. -/
theorem buildDelete_error (t : String) (opts : UpdateOptions) (e : String)
    (hw : whereResult opts.whereOpt = .error e) :
    buildDelete t opts = .error e := by
  obtain ⟨wo⟩ := opts
  cases wo with
  | none => simp [whereResult] at hw
  | some w =>
      simp only [whereResult] at hw
      simp [buildDelete, hw]

/-- A where-clause error propagates out of `buildUpdate` on a non-empty
record. -/
theorem buildUpdate_error (t : String) (data : List (String × WhereVal))
    (opts : UpdateOptions) (e : String) (hne : data ≠ [])
    (hw : whereResult opts.whereOpt = .error e) :
    buildUpdate t data opts = .error e := by
  cases hd : data with
  | nil => exact absurd hd hne
  | cons p tl =>
      obtain ⟨wo⟩ := opts
      cases wo with
      | none => simp [whereResult] at hw
      | some w =>
          simp only [whereResult] at hw
          unfold buildUpdate
          rw [if_neg (by simp)]
          simp [hw]

/-- C10: a where-value of `{ $in: [] }` is still classified as an Operator Set
and, without any error, produces the fragment `<col> IN ()` with zero
parameters; in particular `buildSelect` emits
`SELECT * FROM <t> WHERE <col> IN ()` with an empty parameter list. -/
theorem C10_empty_in_list (t col : String) :
    buildSelect t { whereOpt := some [(col, .vObj [("$in", .vArr [])])] } =
      .ok ("SELECT * FROM " ++ t ++ " WHERE " ++ (col ++ " IN ()"), []) ∧
    isOperator (.vObj [("$in", .vArr [])]) = true := by
  constructor
  · have hne : (((col ++ " IN (") ++ "") ++ ")") ≠ "" := by
      intro h
      have h2 := congrArg String.length h
      rw [String.length_append, String.length_append, String.length_append] at h2
      have h3 : (")" : String).length = 1 := by decide
      have h4 : ("" : String).length = 0 := by decide
      omega
    have h := buildSelect_clauses t
        { whereOpt := some [(col, .vObj [("$in", .vArr [])])] }
        (((col ++ " IN (") ++ "") ++ ")") [] rfl
    rw [if_neg hne] at h
    simpa [String.append_assoc, String.append_empty] using h
  · rfl

/-! ## Placeholder counting -/

theorem countQ_append (a b : String) : countQ (a ++ b) = countQ a + countQ b := by
  simp [countQ, String.data_append, List.count_append]

/-- Joining with a placeholder-free separator sums the placeholder counts. -/
theorem countQ_joinSep (sep : String) (h : countQ sep = 0) (l : List String) :
    countQ (joinSep sep l) = (l.map countQ).sum := by
  induction l with
  | nil => simp [joinSep, countQ]
  | cons x tl ih =>
      cases tl with
      | nil => simp [joinSep]
      | cons y tl2 =>
          show countQ (x ++ sep ++ joinSep sep (y :: tl2)) = _
          rw [countQ_append, countQ_append, h, ih]
          simp

/-- The `IN (...)` placeholder list counts one `?` per element. -/
theorem countQ_placeholders {α : Type} (l : List α) :
    countQ (joinSep ", " (l.map (fun _ => "?"))) = l.length := by
  rw [countQ_joinSep ", " (by decide)]
  induction l with
  | nil => simp
  | cons x tl ih =>
      simp only [List.map_cons, List.sum_cons, List.length_cons, ih]
      have h1 : countQ "?" = 1 := by decide
      omega

/-- One operator-accumulation step preserves the
placeholders-equals-parameters invariant when the fragment holds exactly one
placeholder. -/
theorem opStep_inv (fields : List (String × WhereVal)) (opKey frag : String)
    (acc : List String × List WhereVal) (hf : countQ frag = 1)
    (hacc : (acc.1.map countQ).sum = acc.2.length) :
    (((opStep fields opKey frag acc).1.map countQ)).sum =
      (opStep fields opKey frag acc).2.length := by
  unfold opStep
  cases lookupField fields opKey with
  | none => exact hacc
  | some v => simp [hf, hacc]

/-- The operator expansion emits as many placeholders as parameters. -/
theorem buildOperatorCondition_count (key : String)
    (fields : List (String × WhereVal)) (hk : countQ key = 0)
    (s : String) (ps : List WhereVal)
    (h : buildOperatorCondition key fields = .ok (s, ps)) :
    countQ s = ps.length := by
  have c0 : ((([], []) : List String × List WhereVal).1.map countQ).sum =
      (([], []) : List String × List WhereVal).2.length := by simp
  have c1 := opStep_inv fields "$gt" (key ++ " > ?") ([], [])
    (by rw [countQ_append, hk]; decide) c0
  have c2 := opStep_inv fields "$gte" (key ++ " >= ?") _
    (by rw [countQ_append, hk]; decide) c1
  have c3 := opStep_inv fields "$lt" (key ++ " < ?") _
    (by rw [countQ_append, hk]; decide) c2
  have c4 := opStep_inv fields "$lte" (key ++ " <= ?") _
    (by rw [countQ_append, hk]; decide) c3
  have c5 := opStep_inv fields "$ne" (key ++ " != ?") _
    (by rw [countQ_append, hk]; decide) c4
  have c6 := opStep_inv fields "$like" (key ++ " LIKE ?") _
    (by rw [countQ_append, hk]; decide) c5
  unfold buildOperatorCondition at h
  cases hin : lookupField fields "$in" with
  | none =>
      simp only [hin, Except.ok.injEq, Prod.mk.injEq] at h
      obtain ⟨h1, h2⟩ := h
      subst h1
      subst h2
      rw [countQ_joinSep " AND " (by decide)]
      exact c6
  | some v =>
      cases v with
      | vArr l =>
          simp only [hin, Except.ok.injEq, Prod.mk.injEq] at h
          obtain ⟨h1, h2⟩ := h
          subst h1
          subst h2
          rw [countQ_joinSep " AND " (by decide)]
          rw [List.map_append, List.sum_append, List.length_append]
          simp only [List.map_cons, List.map_nil, List.sum_cons, List.sum_nil]
          have hfrag : countQ (key ++ " IN (" ++
              joinSep ", " (l.map (fun _ => "?")) ++ ")") = l.length := by
            rw [countQ_append, countQ_append, countQ_append, hk,
              countQ_placeholders]
            have h5 : countQ " IN (" = 0 := by decide
            have h6 : countQ ")" = 0 := by decide
            omega
          omega
      | vInt n => rw [hin] at h; exact absurd h (by simp)
      | vStr s2 => rw [hin] at h; exact absurd h (by simp)
      | vBool b => rw [hin] at h; exact absurd h (by simp)
      | vNull => rw [hin] at h; exact absurd h (by simp)
      | vObj f2 => rw [hin] at h; exact absurd h (by simp)

/-- A single where-entry emits as many placeholders as parameters. -/
theorem whereCond_count (key : String) (v : WhereVal) (hk : countQ key = 0)
    (c : String) (ps : List WhereVal) (h : whereCond key v = .ok (c, ps)) :
    countQ c = ps.length := by
  have hq1 : countQ " = ?" = 1 := by decide
  have hq0 : countQ " IS NULL" = 0 := by decide
  cases v with
  | vNull =>
      simp only [whereCond, Except.ok.injEq, Prod.mk.injEq] at h
      obtain ⟨h1, h2⟩ := h
      subst h1
      subst h2
      rw [countQ_append, hk, hq0]
      rfl
  | vObj fields =>
      simp only [whereCond] at h
      by_cases hop : hasOperatorKey fields = true
      · rw [if_pos hop] at h
        exact buildOperatorCondition_count key fields hk c ps h
      · rw [if_neg hop] at h
        simp only [Except.ok.injEq, Prod.mk.injEq] at h
        obtain ⟨h1, h2⟩ := h
        subst h1
        subst h2
        rw [countQ_append, hk, hq1]
        rfl
  | vInt n =>
      simp only [whereCond, Except.ok.injEq, Prod.mk.injEq] at h
      obtain ⟨h1, h2⟩ := h
      subst h1
      subst h2
      rw [countQ_append, hk, hq1]
      rfl
  | vStr s =>
      simp only [whereCond, Except.ok.injEq, Prod.mk.injEq] at h
      obtain ⟨h1, h2⟩ := h
      subst h1
      subst h2
      rw [countQ_append, hk, hq1]
      rfl
  | vBool b =>
      simp only [whereCond, Except.ok.injEq, Prod.mk.injEq] at h
      obtain ⟨h1, h2⟩ := h
      subst h1
      subst h2
      rw [countQ_append, hk, hq1]
      rfl
  | vArr l =>
      simp only [whereCond, Except.ok.injEq, Prod.mk.injEq] at h
      obtain ⟨h1, h2⟩ := h
      subst h1
      subst h2
      rw [countQ_append, hk, hq1]
      rfl

/-- The where-clause loop emits as many placeholders as parameters. -/
theorem whereConditions_count (w : List (String × WhereVal))
    (hk : ∀ p ∈ w, countQ p.1 = 0) (cs : List String) (ps : List WhereVal)
    (h : whereConditions w = .ok (cs, ps)) :
    (cs.map countQ).sum = ps.length := by
  induction w generalizing cs ps with
  | nil =>
      simp only [whereConditions, Except.ok.injEq, Prod.mk.injEq] at h
      obtain ⟨h1, h2⟩ := h
      subst h1
      subst h2
      simp
  | cons p tl ih =>
      unfold whereConditions at h
      cases hc : whereCond p.1 p.2 with
      | error e => rw [hc] at h; exact absurd h (by simp)
      | ok r =>
          obtain ⟨c, cps⟩ := r
          simp only [hc] at h
          cases htl : whereConditions tl with
          | error e => rw [htl] at h; exact absurd h (by simp)
          | ok r2 =>
              obtain ⟨cs2, ps2⟩ := r2
              simp only [htl, Except.ok.injEq, Prod.mk.injEq] at h
              obtain ⟨h1, h2⟩ := h
              subst h1
              subst h2
              have hh := whereCond_count p.1 p.2 (hk p (by simp)) c cps hc
              have hh2 := ih (fun q hq => hk q (by simp [hq])) cs2 ps2 htl
              simp [hh, hh2]

/-- `buildWhereClause` emits as many placeholders as parameters, given
placeholder-free column names. -/
theorem buildWhereClause_count (w : List (String × WhereVal))
    (hk : ∀ p ∈ w, countQ p.1 = 0) (wc : String) (ps : List WhereVal)
    (h : buildWhereClause w = .ok (wc, ps)) : countQ wc = ps.length := by
  unfold buildWhereClause at h
  cases hw : whereConditions w with
  | error e => rw [hw] at h; exact absurd h (by simp)
  | ok r =>
      obtain ⟨cs, ps2⟩ := r
      simp only [hw, Except.ok.injEq, Prod.mk.injEq] at h
      obtain ⟨h1, h2⟩ := h
      subst h1
      subst h2
      rw [countQ_joinSep " AND " (by decide)]
      exact whereConditions_count w hk cs ps2 hw

/-- The optional where computation emits as many placeholders as parameters. -/
theorem whereResult_count (wo : Option (List (String × WhereVal)))
    (hk : ∀ w, wo = some w → ∀ p ∈ w, countQ p.1 = 0)
    (wc : String) (wps : List WhereVal) (h : whereResult wo = .ok (wc, wps)) :
    countQ wc = wps.length := by
  cases wo with
  | none =>
      simp only [whereResult, Except.ok.injEq, Prod.mk.injEq] at h
      obtain ⟨h1, h2⟩ := h
      subst h1
      subst h2
      rfl
  | some w => exact buildWhereClause_count w (hk w rfl) wc wps h

/-- The optional WHERE chunk contributes exactly the WHERE parameters. -/
theorem countQ_whereChunk (wc : String) (wps : List WhereVal)
    (h : countQ wc = wps.length) :
    countQ (if wc = "" then "" else " WHERE " ++ wc) = wps.length := by
  by_cases hwc : wc = ""
  · subst hwc
    simpa using h
  · rw [if_neg hwc, countQ_append, ← h]
    have h5 : countQ " WHERE " = 0 := by decide
    omega

/-- ORDER BY text contributes no placeholders when its column names hold
none. -/
theorem countQ_orderParts (o : List (String × Dir))
    (hk : ∀ p ∈ o, countQ p.1 = 0) :
    countQ (joinSep ", " (o.map (fun p => p.1 ++ " " ++ p.2.toStr))) = 0 := by
  rw [countQ_joinSep ", " (by decide)]
  induction o with
  | nil => simp
  | cons p tl ih =>
      simp only [List.map_cons, List.sum_cons]
      have h1 : countQ (p.1 ++ " " ++ p.2.toStr) = 0 := by
        rw [countQ_append, countQ_append, hk p (by simp)]
        cases p.2 <;> decide
      rw [h1, ih (fun q hq => hk q (by simp [hq]))]

/-- SET text contributes one placeholder per record key. -/
theorem countQ_setParts (data : List (String × WhereVal))
    (hk : ∀ p ∈ data, countQ p.1 = 0) :
    countQ (joinSep ", " (data.map (fun p => p.1 ++ " = ?"))) = data.length := by
  rw [countQ_joinSep ", " (by decide)]
  induction data with
  | nil => simp
  | cons p tl ih =>
      simp only [List.map_cons, List.sum_cons, List.length_cons]
      have h1 : countQ (p.1 ++ " = ?") = 1 := by
        rw [countQ_append, hk p (by simp)]
        decide
      rw [h1, ih (fun q hq => hk q (by simp [hq]))]
      omega

/-- `buildUpdate` on an empty record fails before emitting anything. -/
theorem buildUpdate_nil (t : String) (opts : UpdateOptions) :
    buildUpdate t [] opts = .error "No data to update" := rfl

/-- C9: on inputs whose table name and column names contain no `?` character,
each of `buildSelect`, `buildInsert`, `buildDelete` and `buildUpdate` (the
latter on a non-empty record) returns SQL whose number of `?` placeholders
equals the length of its parameter list — including IS NULL entries, operator
sets and in-lists of any length. -/
theorem C9_placeholder_balance (t : String) (hk : countQ t = 0) :
    (∀ opts sql params,
      (∀ w, opts.whereOpt = some w → ∀ p ∈ w, countQ p.1 = 0) →
      (∀ o, opts.order = some o → ∀ p ∈ o, countQ p.1 = 0) →
      buildSelect t opts = .ok (sql, params) → countQ sql = params.length) ∧
    (∀ data, (∀ p ∈ data, countQ p.1 = 0) →
      countQ (buildInsert t data).1 = (buildInsert t data).2.length) ∧
    (∀ opts sql params,
      (∀ w, opts.whereOpt = some w → ∀ p ∈ w, countQ p.1 = 0) →
      buildDelete t opts = .ok (sql, params) → countQ sql = params.length) ∧
    (∀ data opts sql params, (∀ p ∈ data, countQ p.1 = 0) →
      (∀ w, opts.whereOpt = some w → ∀ p ∈ w, countQ p.1 = 0) →
      buildUpdate t data opts = .ok (sql, params) →
      countQ sql = params.length) := by
  have eSel : countQ "SELECT * FROM " = 0 := by decide
  have eLim : countQ " LIMIT ?" = 1 := by decide
  have eOff : countQ " OFFSET ?" = 1 := by decide
  have eEmp : countQ "" = 0 := by decide
  refine ⟨?_, ?_, ?_, ?_⟩
  · intro opts sql params hkw hko h
    cases hwr : whereResult opts.whereOpt with
    | error e =>
        rw [buildSelect_error t opts e hwr] at h
        exact absurd h (by simp)
    | ok r =>
        obtain ⟨wc, wps⟩ := r
        rw [buildSelect_clauses t opts wc wps hwr] at h
        simp only [Except.ok.injEq, Prod.mk.injEq] at h
        obtain ⟨h1, h2⟩ := h
        subst h1
        subst h2
        have hwcount := whereResult_count opts.whereOpt hkw wc wps hwr
        simp only [countQ_append]
        rw [hk, countQ_whereChunk wc wps hwcount]
        have hord : countQ (match opts.order with
            | some o =>
              if 0 < o.length then
                " ORDER BY " ++ joinSep ", " (o.map (fun p => p.1 ++ " " ++ p.2.toStr))
              else ""
            | none => "") = 0 := by
          cases ho : opts.order with
          | none => exact eEmp
          | some o =>
              show countQ (if 0 < o.length then
                " ORDER BY " ++ joinSep ", " (o.map (fun p => p.1 ++ " " ++ p.2.toStr))
                else "") = 0
              by_cases hl : 0 < o.length
              · rw [if_pos hl, countQ_append, countQ_orderParts o (hko o ho)]
                decide
              · rw [if_neg hl]
                exact eEmp
        rw [hord]
        cases hlim : opts.limit <;> cases hoff : opts.offset <;>
          simp [Option.toList, eSel, eLim, eOff, eEmp, hwcount]
  · intro data hkd
    show countQ ("INSERT INTO " ++ t ++ " (" ++
        joinSep ", " (data.map (fun p => p.1)) ++ ") VALUES (" ++
        joinSep ", " ((data.map (fun p => p.1)).map (fun _ => "?")) ++ ")") =
      (data.map (fun p => p.2)).length
    simp only [countQ_append]
    rw [hk, countQ_placeholders]
    have hcols : countQ (joinSep ", " (data.map (fun p => p.1))) = 0 := by
      rw [countQ_joinSep ", " (by decide)]
      induction data with
      | nil => simp
      | cons p tl ih =>
          simp only [List.map_cons, List.sum_cons]
          rw [hkd p (by simp), ih (fun q hq => hkd q (by simp [hq]))]
    rw [hcols]
    have e1 : countQ "INSERT INTO " = 0 := by decide
    have e2 : countQ " (" = 0 := by decide
    have e3 : countQ ") VALUES (" = 0 := by decide
    have e4 : countQ ")" = 0 := by decide
    simp [e1, e2, e3, e4]
  · intro opts sql params hkw h
    cases hwr : whereResult opts.whereOpt with
    | error e =>
        rw [buildDelete_error t opts e hwr] at h
        exact absurd h (by simp)
    | ok r =>
        obtain ⟨wc, wps⟩ := r
        rw [buildDelete_clauses t opts wc wps hwr] at h
        simp only [Except.ok.injEq, Prod.mk.injEq] at h
        obtain ⟨h1, h2⟩ := h
        subst h1
        subst h2
        have hwcount := whereResult_count opts.whereOpt hkw wc wps hwr
        simp only [countQ_append]
        rw [hk, countQ_whereChunk wc wps hwcount]
        have e1 : countQ "DELETE FROM " = 0 := by decide
        omega
  · intro data opts sql params hkd hkw h
    cases hd : data with
    | nil =>
        rw [hd, buildUpdate_nil] at h
        exact absurd h (by simp)
    | cons p tl =>
        cases hwr : whereResult opts.whereOpt with
        | error e =>
            rw [buildUpdate_error t data opts e (by rw [hd]; simp) hwr] at h
            exact absurd h (by simp)
        | ok r =>
            obtain ⟨wc, wps⟩ := r
            rw [buildUpdate_clauses t data opts wc wps hwr (by rw [hd]; simp)] at h
            simp only [Except.ok.injEq, Prod.mk.injEq] at h
            obtain ⟨h1, h2⟩ := h
            subst h1
            subst h2
            have hwcount := whereResult_count opts.whereOpt hkw wc wps hwr
            simp only [countQ_append]
            rw [hk, countQ_setParts data hkd, countQ_whereChunk wc wps hwcount]
            have e1 : countQ "UPDATE " = 0 := by decide
            have e2 : countQ " SET " = 0 := by decide
            simp [e1, e2]

/-- C9, witness: a select mixing an IS NULL entry, an in-list, and a LIMIT
carries three placeholders and three parameters; an insert of two columns
carries two of each. -/
theorem C9_witness :
    countQ "SELECT * FROM t WHERE deletedAt IS NULL AND id IN (?, ?) LIMIT ?" =
      ([WhereVal.vInt 1, WhereVal.vInt 2, WhereVal.vInt 5] : List WhereVal).length ∧
    countQ (buildInsert "t" [("a", .vInt 1), ("b", .vNull)]).1 =
      (buildInsert "t" [("a", .vInt 1), ("b", .vNull)]).2.length := by
  constructor
  · exact (C9_placeholder_balance "t" (by decide)).1
      { whereOpt := some [("deletedAt", .vNull),
          ("id", .vObj [("$in", .vArr [.vInt 1, .vInt 2])])],
        limit := some 5 }
      "SELECT * FROM t WHERE deletedAt IS NULL AND id IN (?, ?) LIMIT ?"
      [.vInt 1, .vInt 2, .vInt 5]
      (by intro w hw; cases hw; decide)
      (by intro o ho; simp at ho)
      rfl
  · exact (C9_placeholder_balance "t" (by decide)).2.1
      [("a", .vInt 1), ("b", .vNull)] (by decide)

end DeviaDB
